import Mathlib

/-!
Shallow embedding of the `CircleDemo` circuit from `src/circle.rs`.

The circuit proves knowledge of private `x`, `y` with `x^2 + y^2 = r^2` for a
public radius `r`.  `synthesize` is translated statement by statement from the
Rust source: it allocates private variables `x`, `x_square`, `y`, `y_square`,
the public input `r`, and `r_square`, and enforces the four rank-1 constraints
`x*x = x_square`, `y*y = y_square`, `r*r = r_square` and
`(x_square + y_square) * 1 = r_square`.

The constraint-system backend (bellman's `ConstraintSystem`) is modelled as an
explicit state: lists of input/aux assignments, a list of constraints and an
operation trace.  Two backend modes mirror the two bellman backends the test
exercises: `Mode.setup` (parameter generation, which never evaluates the value
closures) and `Mode.proving` (proof generation, which demands a value at every
allocation).  The external Groth16 proving and verification routines are not
part of this repository; they are modelled from the spec where a claim needs
them, and marked as such.
-/

namespace Circle

/-- A constraint-system variable: a public input (instance) slot or a private
auxiliary slot, identified by allocation index.  `input 0` is the reserved
one-constant. -/
inductive Var where
  | input : Nat → Var
  | aux : Nat → Var
  deriving DecidableEq

/-- A linear combination: an ordered list of (variable, coefficient) pairs.
`lc + v` in the source appends `(v, 1)`. -/
abbrev LC (F : Type) := List (Var × F)

/-- The synthesis error enumeration of the bellman backend; the circuit itself
only ever produces `assignmentMissing`. -/
inductive SynthesisError where
  | assignmentMissing
  | divisionByZero
  | unsatisfiable
  | polynomialDegreeTooLarge
  deriving DecidableEq

/-- Which backend the circuit is synthesized against: `setup` ignores value
closures (structure only), `proving` evaluates them and propagates their
errors. -/
inductive Mode where
  | setup
  | proving
  deriving DecidableEq

/-- One enforced rank-1 constraint `a * b = c`, with its label. -/
structure Constraint (F : Type) where
  name : String
  a : LC F
  b : LC F
  c : LC F
  deriving DecidableEq

/-- One operation performed on the constraint system, for the trace. -/
inductive Op (F : Type) where
  | allocAux : String → Op F
  | allocInput : String → Op F
  | enforce : String → LC F → LC F → LC F → Op F
  deriving DecidableEq

/-- The constraint-system state: assigned values of input and aux variables
(`none` when the backend never evaluated the closure), the accumulated
constraints, and the trace of operations in order. -/
structure CSState (F : Type) where
  inputValues : List (Option F)
  auxValues : List (Option F)
  constraints : List (Constraint F)
  trace : List (Op F)
  deriving DecidableEq

/-- The value provider passed to every allocation:
`val.ok_or(SynthesisError::AssignmentMissing)`. -/
def provider {F : Type} (v : Option F) : Except SynthesisError F :=
  match v with
  | none => .error .assignmentMissing
  | some a => .ok a

/-- `cs.alloc`: allocate a private (auxiliary) variable.  In setup mode the
closure is ignored; in proving mode it is evaluated and its error is
propagated before any mutation. -/
def CSState.alloc {F : Type} (mode : Mode) (label : String) (v : Option F)
    (s : CSState F) : Except SynthesisError (Var × CSState F) :=
  match mode with
  | .setup =>
      .ok (Var.aux s.auxValues.length,
        { s with auxValues := s.auxValues ++ [none],
                 trace := s.trace ++ [Op.allocAux label] })
  | .proving =>
      match provider v with
      | .error e => .error e
      | .ok a =>
          .ok (Var.aux s.auxValues.length,
            { s with auxValues := s.auxValues ++ [some a],
                     trace := s.trace ++ [Op.allocAux label] })

/-- `cs.alloc_input`: allocate a public input (instance) variable. -/
def CSState.allocInput {F : Type} (mode : Mode) (label : String) (v : Option F)
    (s : CSState F) : Except SynthesisError (Var × CSState F) :=
  match mode with
  | .setup =>
      .ok (Var.input s.inputValues.length,
        { s with inputValues := s.inputValues ++ [none],
                 trace := s.trace ++ [Op.allocInput label] })
  | .proving =>
      match provider v with
      | .error e => .error e
      | .ok a =>
          .ok (Var.input s.inputValues.length,
            { s with inputValues := s.inputValues ++ [some a],
                     trace := s.trace ++ [Op.allocInput label] })

/-- `cs.enforce`: record the rank-1 constraint `a * b = c`. -/
def CSState.enforce {F : Type} (label : String) (a b c : LC F) (s : CSState F) :
    CSState F :=
  { s with constraints := s.constraints ++ [⟨label, a, b, c⟩],
           trace := s.trace ++ [Op.enforce label a b c] }

/-- The initial constraint-system state of either backend: the reserved
one-constant is input 0, assigned the field one in proving mode. -/
def initState {F : Type} [One F] (mode : Mode) : CSState F :=
  { inputValues := [match mode with | .setup => none | .proving => some 1],
    auxValues := [], constraints := [], trace := [] }

/-- The derived optional square value `val.map(|mut e| { e.square(); e })`. -/
def squareVal {F : Type} [Mul F] (v : Option F) : Option F :=
  v.map (fun e => e * e)

/-- `CircleDemo::synthesize`, statement by statement from `src/circle.rs`.
The constraint system is threaded as explicit state (the Rust `&mut CS`):
mutations made before a failing allocation persist in the returned state. -/
def synthesize {F : Type} [CommRing F] (mode : Mode) (x y r : Option F)
    (s0 : CSState F) : CSState F × Except SynthesisError Unit :=
  match s0.alloc mode "x" x with
  | .error e => (s0, .error e)
  | .ok (xv, s1) =>
  match s1.alloc mode "x_square" (squareVal x) with
  | .error e => (s1, .error e)
  | .ok (xsq, s2) =>
  let s3 := s2.enforce "x_square" [(xv, 1)] [(xv, 1)] [(xsq, 1)]
  match s3.alloc mode "y" y with
  | .error e => (s3, .error e)
  | .ok (yv, s4) =>
  match s4.alloc mode "y_square" (squareVal y) with
  | .error e => (s4, .error e)
  | .ok (ysq, s5) =>
  let s6 := s5.enforce "y_square" [(yv, 1)] [(yv, 1)] [(ysq, 1)]
  match s6.allocInput mode "r" r with
  | .error e => (s6, .error e)
  | .ok (rv, s7) =>
  match s7.alloc mode "r_square" (squareVal r) with
  | .error e => (s7, .error e)
  | .ok (rsq, s8) =>
  let s9 := s8.enforce "r_square" [(rv, 1)] [(rv, 1)] [(rsq, 1)]
  let s10 := s9.enforce "circle" [(xsq, 1), (ysq, 1)] [(Var.input 0, 1)] [(rsq, 1)]
  (s10, .ok ())

/-- Value of a variable under concrete input and aux assignment vectors. -/
def varValue {F : Type} [Zero F] (inputs aux : List F) : Var → F
  | .input i => inputs.getD i 0
  | .aux i => aux.getD i 0

/-- Evaluate a linear combination under an assignment (sum of value·coeff, as
bellman's `eval` does). -/
def LC.eval {F : Type} [CommRing F] (inputs aux : List F) (lc : LC F) : F :=
  (lc.map (fun t => varValue inputs aux t.1 * t.2)).sum

/-- A constraint `a * b = c` holds under an assignment. -/
def Constraint.holds {F : Type} [CommRing F] (inputs aux : List F)
    (c : Constraint F) : Prop :=
  LC.eval inputs aux c.a * LC.eval inputs aux c.b = LC.eval inputs aux c.c

instance {F : Type} [CommRing F] [DecidableEq F] (inputs aux : List F)
    (c : Constraint F) : Decidable (Constraint.holds inputs aux c) := by
  unfold Constraint.holds
  infer_instance

/-- Turn an assignment of optional values into a concrete vector (all entries
are `some` after a successful proving-mode synthesis). -/
def valsOf {F : Type} [Zero F] (l : List (Option F)) : List F :=
  l.map (fun o => o.getD 0)

/-- Every recorded constraint holds under the recorded assignment. -/
def CSState.satisfied {F : Type} [CommRing F] (s : CSState F) : Prop :=
  ∀ cst ∈ s.constraints,
    Constraint.holds (valsOf s.inputValues) (valsOf s.auxValues) cst

instance {F : Type} [CommRing F] [DecidableEq F] (s : CSState F) :
    Decidable s.satisfied := by
  unfold CSState.satisfied
  infer_instance

/-- The opaque proof artifact, as far as the CORE observes it: it binds the
public input vector it was created for. -/
structure Proof (F : Type) where
  publicInputs : List F
  deriving DecidableEq

/-- Modelled from the spec: the external Groth16 proving routine
(`create_random_proof` of the bellman library, not part of this repository).
Per the spec, proving synthesizes the circuit with concrete values against a
value-requiring backend, and if the concrete values do not satisfy the
constraints the backend rejects with an unsatisfiable-witness failure; on
success the proof binds the public input vector (the input assignments after
the reserved one-constant). -/
def createProof {F : Type} [CommRing F] [DecidableEq F] (x y r : Option F) :
    Except SynthesisError (Proof F) :=
  match synthesize Mode.proving x y r (initState Mode.proving) with
  | (_, .error e) => .error e
  | (s, .ok ()) =>
      if s.satisfied then .ok ⟨valsOf (s.inputValues.drop 1)⟩
      else .error .unsatisfiable

/-- Modelled from the spec: the external Groth16 verification routine
(`verify_proof`), which checks a proof against the ordered public input vector
and returns accept/reject; a valid proof verifies exactly against the public
inputs it was created with. -/
def verifyProof {F : Type} [DecidableEq F] (pr : Proof F) (inputs : List F) :
    Bool :=
  decide (pr.publicInputs = inputs)

/-- The order of the BLS12-381 scalar field `Fr` used by the test harness. -/
def frOrder : Nat :=
  52435875175126190479447740508185965837690552500527637822603658699938581184513

/-- The BLS12-381 scalar field `Fr`. -/
abbrev Fr := ZMod frOrder

/-- The constraint `x * x = x_square` over the allocated variable positions. -/
def xSquareConstraint {F : Type} [CommRing F] : Constraint F :=
  ⟨"x_square", [(Var.aux 0, 1)], [(Var.aux 0, 1)], [(Var.aux 1, 1)]⟩

/-- The constraint `y * y = y_square` over the allocated variable positions. -/
def ySquareConstraint {F : Type} [CommRing F] : Constraint F :=
  ⟨"y_square", [(Var.aux 2, 1)], [(Var.aux 2, 1)], [(Var.aux 3, 1)]⟩

/-- The constraint `r * r = r_square` over the allocated variable positions. -/
def rSquareConstraint {F : Type} [CommRing F] : Constraint F :=
  ⟨"r_square", [(Var.input 1, 1)], [(Var.input 1, 1)], [(Var.aux 4, 1)]⟩

/-- The closing constraint `(x_square + y_square) * 1 = r_square`, with the
reserved one-constant `input 0` on the B side. -/
def closingConstraint {F : Type} [CommRing F] : Constraint F :=
  ⟨"circle", [(Var.aux 1, 1), (Var.aux 3, 1)], [(Var.input 0, 1)], [(Var.aux 4, 1)]⟩

/-- The four constraints the circuit enforces, in order. -/
def circleConstraints {F : Type} [CommRing F] : List (Constraint F) :=
  [xSquareConstraint, ySquareConstraint, rSquareConstraint, closingConstraint]

/-- The fixed operation sequence of a complete synthesis, in order. -/
def circleOps {F : Type} [CommRing F] : List (Op F) :=
  [Op.allocAux "x", Op.allocAux "x_square",
   Op.enforce "x_square" [(Var.aux 0, 1)] [(Var.aux 0, 1)] [(Var.aux 1, 1)],
   Op.allocAux "y", Op.allocAux "y_square",
   Op.enforce "y_square" [(Var.aux 2, 1)] [(Var.aux 2, 1)] [(Var.aux 3, 1)],
   Op.allocInput "r", Op.allocAux "r_square",
   Op.enforce "r_square" [(Var.input 1, 1)] [(Var.input 1, 1)] [(Var.aux 4, 1)],
   Op.enforce "circle" [(Var.aux 1, 1), (Var.aux 3, 1)] [(Var.input 0, 1)]
     [(Var.aux 4, 1)]]

/-- The final constraint-system state of a proving-mode synthesis with all
three values present. -/
def provingState {F : Type} [CommRing F] (x y r : F) : CSState F :=
  (synthesize Mode.proving (some x) (some y) (some r) (initState Mode.proving)).1

/-- The constraint-system state after the `x` and `x_square` allocations and
the `x * x = x_square` constraint (where a proving-mode synthesis with `y`
absent stops). -/
def stateX {F : Type} [CommRing F] (a : F) : CSState F :=
  { inputValues := [some 1],
    auxValues := [some a, some (a * a)],
    constraints := [xSquareConstraint],
    trace := [Op.allocAux "x", Op.allocAux "x_square",
      Op.enforce "x_square" [(Var.aux 0, 1)] [(Var.aux 0, 1)] [(Var.aux 1, 1)]] }

/-- The constraint-system state after the `x` and `y` halves (where a
proving-mode synthesis with `r` absent stops). -/
def stateXY {F : Type} [CommRing F] (a b : F) : CSState F :=
  { inputValues := [some 1],
    auxValues := [some a, some (a * a), some b, some (b * b)],
    constraints := [xSquareConstraint, ySquareConstraint],
    trace := [Op.allocAux "x", Op.allocAux "x_square",
      Op.enforce "x_square" [(Var.aux 0, 1)] [(Var.aux 0, 1)] [(Var.aux 1, 1)],
      Op.allocAux "y", Op.allocAux "y_square",
      Op.enforce "y_square" [(Var.aux 2, 1)] [(Var.aux 2, 1)] [(Var.aux 3, 1)]] }

/-- Recognize public-input allocations in the trace. -/
def Op.isPublicAlloc {F : Type} : Op F → Bool
  | .allocInput _ => true
  | _ => false

/-- The closing constraint holds under the circuit's own witness exactly when
`x^2 + y^2 = r^2`. -/
lemma closing_holds_iff {F : Type} [CommRing F] (x y r : F) :
    Constraint.holds [1, r] [x, x * x, y, y * y, r * r] (closingConstraint (F := F)) ↔
      x * x + y * y = r * r := by
  show (x * x * 1 + (y * y * 1 + 0)) * (1 * 1 + 0) = r * r * 1 + 0 ↔
    x * x + y * y = r * r
  constructor <;> intro h <;> linear_combination h

/-- The witness computed by a proving-mode synthesis satisfies all four
constraints exactly when `x^2 + y^2 = r^2` (the three square constraints hold
unconditionally). -/
lemma provingState_satisfied_iff {F : Type} [CommRing F] (x y r : F) :
    (provingState x y r).satisfied ↔ x * x + y * y = r * r := by
  constructor
  · intro hs
    have h4 : Constraint.holds [1, r] [x, x * x, y, y * y, r * r]
        (closingConstraint (F := F)) :=
      hs closingConstraint
        (List.mem_cons_of_mem _ (List.mem_cons_of_mem _
          (List.mem_cons_of_mem _ (List.mem_cons_self _ _))))
    exact (closing_holds_iff x y r).mp h4
  · intro h cst hcst
    have hc : (provingState x y r).constraints = circleConstraints (F := F) := rfl
    rw [hc] at hcst
    simp only [circleConstraints, List.mem_cons, List.not_mem_nil, or_false] at hcst
    rcases hcst with rfl | rfl | rfl | rfl
    · show (x * 1 + 0) * (x * 1 + 0) = x * x * 1 + 0
      ring
    · show (y * 1 + 0) * (y * 1 + 0) = y * y * 1 + 0
      ring
    · show (r * 1 + 0) * (r * 1 + 0) = r * r * 1 + 0
      ring
    · exact (closing_holds_iff x y r).mpr h

/-- With all three values present, `createProof` reduces to the
satisfiability check over the synthesized state. -/
lemma createProof_eq {F : Type} [CommRing F] [DecidableEq F] (x y r : F) :
    createProof (some x) (some y) (some r) =
      if (provingState x y r).satisfied then .ok ⟨[r]⟩
      else .error .unsatisfiable := rfl

/-- Claim C1: for every choice of optional values x, y, r, `synthesize`
performs exactly the fixed sequence: allocate private x; allocate private
x_square and enforce x·x = x_square; allocate private y; allocate private
y_square and enforce y·y = y_square; allocate public r; allocate private
r_square and enforce r·r = r_square; enforce the closing constraint
(x_square + y_square)·1 = r_square with the reserved one-constant — and
nothing else.  The trace, constraint list and variable counts are exact, both
for a setup-mode run with arbitrary optional values and for a proving-mode run
with concrete values. -/
theorem synthesize_fixed_sequence {F : Type} [CommRing F] (x y r : Option F)
    (a b c : F) :
    synthesize Mode.setup x y r (initState Mode.setup) =
      ({ inputValues := [none, none],
         auxValues := [none, none, none, none, none],
         constraints := circleConstraints, trace := circleOps }, .ok ()) ∧
    synthesize Mode.proving (some a) (some b) (some c) (initState Mode.proving) =
      ({ inputValues := [some 1, some c],
         auxValues := [some a, some (a * a), some b, some (b * b), some (c * c)],
         constraints := circleConstraints, trace := circleOps }, .ok ()) :=
  ⟨rfl, rfl⟩

/-- Claim C2: for concrete x, y, r with x² + y² ≠ r², the assignments the
circuit produces (x, x², y, y², r, r²) violate the closing constraint
(x_square + y_square)·1 = r_square, and proof creation fails with the
unsatisfiable-witness condition instead of producing a proof. -/
theorem unsatisfiable_witness_rejected {F : Type} [CommRing F] [DecidableEq F]
    (x y r : F) (h : x * x + y * y ≠ r * r) :
    (provingState x y r).constraints = circleConstraints ∧
    ¬ Constraint.holds (valsOf (provingState x y r).inputValues)
        (valsOf (provingState x y r).auxValues) closingConstraint ∧
    ¬ (provingState x y r).satisfied ∧
    createProof (some x) (some y) (some r) = .error .unsatisfiable := by
  have hns : ¬ (provingState x y r).satisfied := fun hs =>
    h ((provingState_satisfied_iff x y r).mp hs)
  have hnc : ¬ Constraint.holds [1, r] [x, x * x, y, y * y, r * r]
      (closingConstraint (F := F)) :=
    fun hc => h ((closing_holds_iff x y r).mp hc)
  exact ⟨rfl, hnc, hns, by rw [createProof_eq, if_neg hns]⟩

/-- Witness for C2 at x = y = r = 1 over the BLS12-381 scalar field:
1 + 1 ≠ 1, the closing constraint is violated and proving is rejected. -/
theorem unsatisfiable_witness_rejected_w :
    ((1 : Fr) * 1 + 1 * 1 ≠ 1 * 1) ∧
    ((provingState (1 : Fr) 1 1).constraints = circleConstraints ∧
     ¬ Constraint.holds (valsOf (provingState (1 : Fr) 1 1).inputValues)
         (valsOf (provingState (1 : Fr) 1 1).auxValues) closingConstraint ∧
     ¬ (provingState (1 : Fr) 1 1).satisfied ∧
     createProof (some (1 : Fr)) (some 1) (some 1) = .error .unsatisfiable) :=
  ⟨by decide, unsatisfiable_witness_rejected 1 1 1 (by decide)⟩

/-- Claim C3: for all field elements x, y, r with x² + y² = r², the witness
the circuit computes satisfies every one of the four enforced constraints, so
proving succeeds and verification against the single-element public input [r]
returns true. -/
theorem completeness {F : Type} [CommRing F] [DecidableEq F] (x y r : F)
    (h : x * x + y * y = r * r) :
    (provingState x y r).constraints = circleConstraints ∧
    (provingState x y r).satisfied ∧
    createProof (some x) (some y) (some r) = .ok ⟨[r]⟩ ∧
    verifyProof (Proof.mk [r]) [r] = true := by
  have hs : (provingState x y r).satisfied := (provingState_satisfied_iff x y r).mpr h
  refine ⟨rfl, hs, ?_, ?_⟩
  · rw [createProof_eq, if_pos hs]
  · simp [verifyProof]

/-- Witness for C3 at the spec's 3-4-5 instance over the BLS12-381 scalar
field: x = 4, y = 3, r = 5 gives 16 + 9 = 25, the proof is created and
verifies against [5]. -/
theorem completeness_w :
    ((4 : Fr) * 4 + 3 * 3 = 5 * 5) ∧
    ((provingState (4 : Fr) 3 5).constraints = circleConstraints ∧
     (provingState (4 : Fr) 3 5).satisfied ∧
     createProof (some (4 : Fr)) (some 3) (some 5) = .ok ⟨[5]⟩ ∧
     verifyProof (Proof.mk [(5 : Fr)]) [5] = true) :=
  ⟨by decide, completeness 4 3 5 (by decide)⟩

/-- Claim C4: a setup-mode run with any (or all) values absent and a
proving-mode run with any concrete values produce constraint systems with the
same constraints (same linear combinations over the same variable positions),
the same number of aux and input variables, and the same operation trace;
only the assigned values differ. -/
theorem structural_stability {F : Type} [CommRing F] (x y r : Option F)
    (a b c : F) :
    (synthesize Mode.setup x y r (initState Mode.setup)).1.constraints =
      (synthesize Mode.proving (some a) (some b) (some c)
        (initState Mode.proving)).1.constraints ∧
    (synthesize Mode.setup x y r (initState Mode.setup)).1.auxValues.length =
      (synthesize Mode.proving (some a) (some b) (some c)
        (initState Mode.proving)).1.auxValues.length ∧
    (synthesize Mode.setup x y r (initState Mode.setup)).1.inputValues.length =
      (synthesize Mode.proving (some a) (some b) (some c)
        (initState Mode.proving)).1.inputValues.length ∧
    (synthesize Mode.setup x y r (initState Mode.setup)).1.trace =
      (synthesize Mode.proving (some a) (some b) (some c)
        (initState Mode.proving)).1.trace :=
  ⟨rfl, rfl, rfl, rfl⟩

/-- Claim C5: the value provider fails with assignment-missing exactly when
the optional value is absent (never defaulting), so a proving-mode synthesis
with any of x, y, r absent fails with assignment-missing. -/
theorem missing_assignment_fails {F : Type} [CommRing F] (x y r : Option F)
    (h : x = none ∨ y = none ∨ r = none) :
    (∀ v : Option F,
      provider v = .error SynthesisError.assignmentMissing ↔ v = none) ∧
    (synthesize Mode.proving x y r (initState Mode.proving)).2 =
      .error SynthesisError.assignmentMissing := by
  refine ⟨fun v => ?_, ?_⟩
  · cases v <;> simp [provider]
  · rcases h with rfl | rfl | rfl
    · rfl
    · cases x <;> rfl
    · cases x <;> cases y <;> rfl

/-- Witness for C5 over the BLS12-381 scalar field: with y absent (x = r = 1
present), proving-mode synthesis fails with assignment-missing. -/
theorem missing_assignment_fails_w :
    ((some (1 : Fr)) = none ∨ (none : Option Fr) = none ∨
      (some (1 : Fr)) = none) ∧
    ((∀ v : Option Fr,
       provider v = .error SynthesisError.assignmentMissing ↔ v = none) ∧
     (synthesize Mode.proving (some (1 : Fr)) none (some 1)
        (initState Mode.proving)).2 = .error SynthesisError.assignmentMissing) :=
  ⟨Or.inr (Or.inl rfl),
   missing_assignment_fails (some 1) none (some 1) (Or.inr (Or.inl rfl))⟩

/-- Claim C6: the derived optional values are the exact field squares of
their sources — `squareVal (some a) = some (a·a)`, absence propagates
(`squareVal none = none`, and `squareVal` is some exactly when its source is) —
and the aux assignments of a full proving run are exactly
[x, x·x, y, y·y, r·r]. -/
theorem derived_square_values {F : Type} [CommRing F] (a x y r : F) :
    squareVal (some a) = some (a * a) ∧
    squareVal (none : Option F) = none ∧
    (∀ v : Option F, (squareVal v).isSome = v.isSome) ∧
    (provingState x y r).auxValues =
      [some x, some (x * x), some y, some (y * y), some (r * r)] :=
  ⟨rfl, rfl, fun v => by cases v <;> rfl, rfl⟩

/-- Claim C7: every proving-mode synthesis either succeeds, or stops at the
first failing allocation with the assignment-missing error and a state holding
exactly the variables and constraints appended before that allocation: the
untouched initial state when x is absent, the state after the x half when y is
absent, and the state after the x and y halves when r is absent.  No further
allocation or enforcement follows a failure, and synthesis is a pure function,
so there is no recovery or retry. -/
theorem error_propagation {F : Type} [CommRing F] (x y r : Option F) :
    (synthesize Mode.proving x y r (initState Mode.proving)).2 = .ok () ∨
    synthesize Mode.proving x y r (initState Mode.proving) =
      (initState Mode.proving, .error SynthesisError.assignmentMissing) ∨
    (∃ a, x = some a ∧ y = none ∧
      synthesize Mode.proving x y r (initState Mode.proving) =
        (stateX a, .error SynthesisError.assignmentMissing)) ∨
    (∃ a b, x = some a ∧ y = some b ∧ r = none ∧
      synthesize Mode.proving x y r (initState Mode.proving) =
        (stateXY a b, .error SynthesisError.assignmentMissing)) := by
  cases x with
  | none => exact Or.inr (Or.inl rfl)
  | some a =>
    cases y with
    | none => exact Or.inr (Or.inr (Or.inl ⟨a, rfl, rfl, rfl⟩))
    | some b =>
      cases r with
      | none => exact Or.inr (Or.inr (Or.inr ⟨a, b, rfl, rfl, rfl, rfl⟩))
      | some c => exact Or.inl rfl

/-- Claim C8: the circuit allocates exactly one public variable, r, via the
public-input primitive (one allocInput op in the trace; the input vector is
the reserved one followed by r alone), the public input vector of the created
proof is [r], and verification against any value different from r returns
false while [r] verifies. -/
theorem public_input_binding {F : Type} [CommRing F] [DecidableEq F] (x y r : F)
    (h : x * x + y * y = r * r) :
    (provingState x y r).inputValues = [some 1, some r] ∧
    (provingState x y r).trace.filter Op.isPublicAlloc = [Op.allocInput "r"] ∧
    createProof (some x) (some y) (some r) = .ok ⟨[r]⟩ ∧
    verifyProof (Proof.mk [r]) [r] = true ∧
    (∀ s : F, s ≠ r → verifyProof (Proof.mk [r]) [s] = false) := by
  have hs : (provingState x y r).satisfied := (provingState_satisfied_iff x y r).mpr h
  refine ⟨rfl, rfl, by rw [createProof_eq, if_pos hs], by simp [verifyProof], ?_⟩
  intro s hsne
  simp only [verifyProof, decide_eq_false_iff_not]
  intro hrs
  injection hrs with h1 h2
  exact hsne h1.symm

/-- Witness for C8 at x = 4, y = 3, r = 5 over the BLS12-381 scalar field
(the spec's scenario, where verification with public input 6 must fail). -/
theorem public_input_binding_w :
    ((4 : Fr) * 4 + 3 * 3 = 5 * 5) ∧
    ((provingState (4 : Fr) 3 5).inputValues = [some 1, some 5] ∧
     (provingState (4 : Fr) 3 5).trace.filter Op.isPublicAlloc =
       [Op.allocInput "r"] ∧
     createProof (some (4 : Fr)) (some 3) (some 5) = .ok ⟨[5]⟩ ∧
     verifyProof (Proof.mk [(5 : Fr)]) [5] = true ∧
     (∀ s : Fr, s ≠ 5 → verifyProof (Proof.mk [(5 : Fr)]) [s] = false)) :=
  ⟨by decide, public_input_binding 4 3 5 (by decide)⟩

/-- Claim C9: whenever all three values x, y, r are present, synthesis
returns success regardless of whether x² + y² = r² holds — the circuit only
declares the relations, it never checks the concrete values. -/
theorem synthesize_succeeds_with_all_values {F : Type} [CommRing F] (x y r : F) :
    (synthesize Mode.proving (some x) (some y) (some r)
      (initState Mode.proving)).2 = .ok () :=
  rfl

/-- Claim C10: when proving-mode synthesis fails at the absent y, the x and
x_square allocations and the x·x = x_square constraint appended before the
failure remain in the returned constraint-system state: no rollback happens on
an error result. -/
theorem no_rollback_on_failure {F : Type} [CommRing F] (a : F) (r : Option F) :
    synthesize Mode.proving (some a) none r (initState Mode.proving) =
      (stateX a, .error SynthesisError.assignmentMissing) ∧
    (stateX a).auxValues = [some a, some (a * a)] ∧
    (stateX a).constraints = [xSquareConstraint] ∧
    (stateX a).trace = [Op.allocAux "x", Op.allocAux "x_square",
      Op.enforce "x_square" [(Var.aux 0, 1)] [(Var.aux 0, 1)] [(Var.aux 1, 1)]] :=
  ⟨rfl, rfl, rfl, rfl⟩

end Circle
